import Mathlib

/-!
Shallow embedding of `src/teaching.py`, a Streamlit script that orchestrates
four teaching agents over an Ollama chat endpoint and a SerpAPI web search,
and assembles their outputs into downloadable documents.

External effects are embedded as explicit oracle functions:
a chat oracle (for `ollama.chat`, which either returns the assistant text or
raises, modelled as `Except`) and an HTTP oracle (for `requests.get` against
the fixed SerpAPI URL, which either raises or returns a response whose body
parses as JSON or fails to parse).  All other code is translated directly.
-/

/-- Python `s.lower()` applied character-wise (`topic.lower()` in the source). -/
def pyLower (s : String) : String := ⟨s.data.map Char.toLower⟩

/-- Python `s.upper()` applied character-wise (`topic.upper()` in the source). -/
def pyUpper (s : String) : String := ⟨s.data.map Char.toUpper⟩

/-- Python `topic.lower().replace(' ', '_')`: since the pattern is the single
character space, `str.replace` is exactly a character-wise substitution. -/
def pySnake (topic : String) : String :=
  ⟨(pyLower topic).data.map (fun c => if c = ' ' then '_' else c)⟩

/-- Python `model or st.session_state[..]` in `call_ollama`: `or` on strings
takes the left operand unless it is falsy (empty or absent/None). -/
def pyOrDefault (model : Option String) (session : String) : String :=
  match model with
  | none => session
  | some m => if m = "" then session else m

/-- One entry of the `messages` list passed to `ollama.chat`. -/
structure ChatMessage where
  role : String
  content : String
deriving DecidableEq

/-- Oracle for `ollama.chat(model=..., messages=...)`: returns the assistant
message content, or the message of the exception it raised. -/
def ChatFn : Type := String → List ChatMessage → Except String String

/-- Embedding of `call_ollama` (src/teaching.py lines 57 to 66): sends one
user-role message holding the prompt to `model or session`, returns the
content verbatim, and converts any exception into the string
`"Error calling Ollama: {e}"`. -/
def call_ollama (chat : ChatFn) (session : String) (prompt : String)
    (model : Option String) : String :=
  match chat (pyOrDefault model session) [⟨"user", prompt⟩] with
  | .ok content => content
  | .error e => "Error calling Ollama: " ++ e

/-- The query-parameter dict `\x7b'q', 'api_key', 'engine', 'num'\x7d` built in
`search_web`; the request URL is the fixed `https://serpapi.com/search`. -/
structure SearchParams where
  q : String
  api_key : String
  engine : String
  num : Nat
deriving DecidableEq

/-- One element of the `organic_results` array: a JSON object whose
`title`, `link`, `snippet` fields may each be absent. -/
structure SerpEntry where
  title : Option String
  link : Option String
  snippet : Option String
deriving DecidableEq

/-- The parsed SerpAPI response body, with the one field the code reads:
`organic_results`, absent or a list of entries. -/
structure SerpData where
  organic_results : Option (List SerpEntry)
deriving DecidableEq

/-- Result of `response.json()`: the body parses to data, or parsing raises. -/
inductive BodyParse where
  | malformed (msg : String)
  | parsed (data : SerpData)
deriving DecidableEq

/-- Outcome of `requests.get`: the request raises, or returns a response with
a status code (which the source never inspects) and a body. -/
inductive HttpOutcome where
  | exn (msg : String)
  | resp (status : Nat) (body : BodyParse)
deriving DecidableEq

/-- Oracle for the HTTP GET issued by `search_web`. -/
def HttpFn : Type := SearchParams → HttpOutcome

/-- An element of the list returned by `search_web`: either a result dict
`\x7btitle, link, snippet\x7d` or the error dict `\x7berror: msg\x7d`. -/
inductive SearchItem where
  | record (title link snippet : String)
  | error (msg : String)
deriving DecidableEq

/-- Embedding of `search_web` (src/teaching.py lines 69 to 91): one GET with
params `q=query, api_key, engine='google', num=5`; if the request or the JSON
parse raises, return `[\x7b'error': 'Search error: e'\x7d]`; otherwise map each
`organic_results` entry to its `title`/`link`/`snippet` with default `''`,
or return `[]` when the field is absent. -/
def search_web (http : HttpFn) (query : String) (api_key : String) :
    List SearchItem :=
  match http ⟨query, api_key, "google", 5⟩ with
  | .exn e => [.error ("Search error: " ++ e)]
  | .resp _status body =>
    match body with
    | .malformed e => [.error ("Search error: " ++ e)]
    | .parsed data =>
      match data.organic_results with
      | none => []
      | some entries =>
        entries.map (fun r =>
          .record (r.title.getD "") (r.link.getD "") (r.snippet.getD ""))

/-- Lower-case hex digit, for the `\uXXXX` escapes of `json.dumps`. -/
def hexDigitChar (n : Nat) : Char :=
  if n < 10 then Char.ofNat (48 + n) else Char.ofNat (87 + n)

/-- Four lower-case hex digits of `n % 65536`. -/
def hex4 (n : Nat) : String :=
  ⟨[hexDigitChar (n / 4096 % 16), hexDigitChar (n / 256 % 16),
    hexDigitChar (n / 16 % 16), hexDigitChar (n % 16)]⟩

/-- How `json.dumps` (default `ensure_ascii=True`) renders one character of a
string: `"` and backslash get a backslash escape, the usual control-character
shorthands apply, every other character outside `0x20..0x7E` becomes `\uXXXX`
(a surrogate pair above `0xFFFF`), and the rest stand for themselves. -/
def jsonEscapeChar (c : Char) : String :=
  if c = '"' then "\\\""
  else if c = '\\' then "\\\\"
  else if c = '\n' then "\\n"
  else if c = '\r' then "\\r"
  else if c = '\t' then "\\t"
  else if c.toNat = 8 then "\\b"
  else if c.toNat = 12 then "\\f"
  else if c.toNat < 32 || 126 < c.toNat then
    if c.toNat < 65536 then "\\u" ++ hex4 c.toNat
    else
      "\\u" ++ hex4 (55296 + (c.toNat - 65536) / 1024) ++
      "\\u" ++ hex4 (56320 + (c.toNat - 65536) % 1024)
  else String.singleton c

/-- A JSON string literal as `json.dumps` renders it. -/
def jsonString (s : String) : String :=
  "\"" ++ String.join (s.data.map jsonEscapeChar) ++ "\""

/-- One search dict as `json.dumps(results, indent=2)` renders it at array
depth 1: keys in insertion order, indented four spaces, closing brace
indented two. -/
def dumpsItem : SearchItem → String
  | .record t l s =>
    "\x7b\n    \"title\": " ++ jsonString t ++ ",\n    \"link\": " ++
    jsonString l ++ ",\n    \"snippet\": " ++ jsonString s ++ "\n  \x7d"
  | .error m => "\x7b\n    \"error\": " ++ jsonString m ++ "\n  \x7d"

/-- Embedding of `json.dumps(search_results, indent=2)` on the lists this
program produces: `[]` for the empty list, otherwise the items joined by
`,\n` at indent 2. -/
def json_dumps (xs : List SearchItem) : String :=
  match xs with
  | [] => "[]"
  | _ => "[\n  " ++ String.intercalate ",\n  " (xs.map dumpsItem) ++ "\n]"

/-- The dict each agent returns: `content`, `title`, `filename`, and (for the
Research Librarian only) the raw `search_results`; `none` models absence of
that key. -/
structure AgentResult where
  content : String
  title : String
  filename : String
  search_results : Option (List SearchItem)
deriving DecidableEq

/-- Embedding of `professor_agent` (src/teaching.py lines 94 to 115): builds
the fixed prompt around the topic, calls `call_ollama` with the default
model, and wraps the response. -/
def professor_agent (chat : ChatFn) (session : String) (topic : String) :
    AgentResult :=
  let prompt :=
    "\n    You are a Professor and Research Specialist. Create a comprehensive knowledge base for the topic: "
    ++ topic ++
    "\n    \n    Requirements:\n    1. Explain the topic from first principles\n    2. Include key terminology, core principles, and practical applications\n    3. Make it detailed and accessible for beginners\n    4. Format it clearly with headings and structure\n    5. Include current developments and trends\n    \n    Create a detailed report that anyone starting out can read and get maximum value from.\n    "
  let response := call_ollama chat session prompt none
  ⟨response, "Professor Report - " ++ topic,
   "professor_report_" ++ pySnake topic, none⟩

/-- Embedding of `academic_advisor_agent` (src/teaching.py lines 118 to 139). -/
def academic_advisor_agent (chat : ChatFn) (session : String) (topic : String) :
    AgentResult :=
  let prompt :=
    "\n    You are an Academic Advisor and Learning Path Designer. Create a detailed learning roadmap for: "
    ++ topic ++
    "\n    \n    Requirements:\n    1. Break down the topic into logical subtopics\n    2. Arrange them in order of progression\n    3. Include estimated time commitments for each section\n    4. Create a structured learning path to become an expert\n    5. Include milestones and checkpoints\n    \n    Present the roadmap in a clear, structured format with timelines.\n    "
  let response := call_ollama chat session prompt none
  ⟨response, "Learning Roadmap - " ++ topic,
   "learning_roadmap_" ++ pySnake topic, none⟩

/-- Embedding of `research_librarian_agent` (src/teaching.py lines 142 to 170):
searches for `learn \x7btopic\x7d tutorial course`, serializes the results
with `json.dumps(search_results, indent=2)` into the prompt, calls the LLM,
and returns the result together with the raw search results. -/
def research_librarian_agent (chat : ChatFn) (session : String) (http : HttpFn)
    (serpapi_api_key : String) (topic : String) : AgentResult :=
  let search_results :=
    search_web http ("learn " ++ topic ++ " tutorial course") serpapi_api_key
  let prompt :=
    "\n    You are a Research Librarian. Based on the search results below, curate high-quality learning resources for: "
    ++ topic ++
    "\n    \n    Search Results:\n    "
    ++ json_dumps search_results ++
    "\n    \n    Requirements:\n    1. Evaluate and recommend the best resources\n    2. Categorize them by type (tutorials, courses, books, videos, etc.)\n    3. Include difficulty levels and prerequisites\n    4. Provide brief descriptions and why each resource is valuable\n    5. Include both free and paid options\n    \n    Create a comprehensive resource guide.\n    "
  let response := call_ollama chat session prompt none
  ⟨response, "Learning Resources - " ++ topic,
   "learning_resources_" ++ pySnake topic, some search_results⟩

/-- Embedding of `teaching_assistant_agent` (src/teaching.py lines 173 to 195). -/
def teaching_assistant_agent (chat : ChatFn) (session : String)
    (topic : String) : AgentResult :=
  let prompt :=
    "\n    You are a Teaching Assistant. Create practice materials, exercises, and projects for: "
    ++ topic ++
    "\n    \n    Requirements:\n    1. Create hands-on exercises and practice problems\n    2. Design projects that build real-world skills\n    3. Include coding challenges if applicable\n    4. Provide step-by-step instructions\n    5. Include assessment criteria and solutions\n    6. Make materials progressive from beginner to advanced\n    \n    Create comprehensive practice materials that reinforce learning.\n    "
  let response := call_ollama chat session prompt none
  ⟨response, "Practice Materials - " ++ topic,
   "practice_materials_" ++ pySnake topic, none⟩

/-- The ways the script halts before running any agent: empty credentials
(lines 41 to 43), `ollama.list()` raising (lines 52 to 54), the selected
model absent from the inventory (lines 49 to 51), or an empty topic at the
button handler (lines 205 to 206). -/
inductive ConfigError where
  | missingKeys
  | connectError (msg : String)
  | modelNotFound (model : String) (available : List String)
  | emptyTopic
deriving DecidableEq

/-- Embedding of one generation cycle of the script: the credential check
(line 41), the `ollama.list()` inventory check (lines 46 to 54), the topic
check (line 205), then the four agents run with the validated model as the
session model (lines 213 to 225). -/
def generation_cycle (composio_api_key serpapi_api_key model : String)
    (listResult : Except String (List String)) (chat : ChatFn) (http : HttpFn)
    (topic : String) :
    Except ConfigError (AgentResult × AgentResult × AgentResult × AgentResult) :=
  if composio_api_key = "" ∨ serpapi_api_key = "" then .error .missingKeys
  else
    match listResult with
    | .error e => .error (.connectError e)
    | .ok available_models =>
      if model ∈ available_models then
        if topic = "" then .error .emptyTopic
        else
          .ok (professor_agent chat model topic,
               academic_advisor_agent chat model topic,
               research_librarian_agent chat model http serpapi_api_key topic,
               teaching_assistant_agent chat model topic)
      else .error (.modelNotFound model available_models)

/-- A `datetime.now()` value, with the fields the two `strftime` calls read. -/
structure DateTime where
  year : Nat
  month : Nat
  day : Nat
  hour : Nat
  minute : Nat
  second : Nat
deriving DecidableEq

/-- A two-digit zero-padded field (`%m`, `%d`, `%H`, `%M`, `%S`). -/
def pad2 (n : Nat) : String := if n < 10 then "0" ++ Nat.repr n else Nat.repr n

/-- `datetime.now().strftime('%Y%m%d_%H%M%S')` (src/teaching.py line 231). -/
def strftime_compact (d : DateTime) : String :=
  Nat.repr d.year ++ pad2 d.month ++ pad2 d.day ++ "_" ++
  pad2 d.hour ++ pad2 d.minute ++ pad2 d.second

/-- `datetime.now().strftime('%Y-%m-%d %H:%M:%S')` (src/teaching.py line 276). -/
def strftime_display (d : DateTime) : String :=
  Nat.repr d.year ++ "-" ++ pad2 d.month ++ "-" ++ pad2 d.day ++ " " ++
  pad2 d.hour ++ ":" ++ pad2 d.minute ++ ":" ++ pad2 d.second

/-- Embedding of the `complete_package` f-string (src/teaching.py lines 274
to 301), chunk for chunk, with the second `datetime.now()` call passed in. -/
def complete_package (topic : String) (now2 : DateTime)
    (professorContent advisorContent librarianContent assistantContent :
      String) : String :=
  "\nCOMPLETE LEARNING PACKAGE FOR: " ++ pyUpper topic ++
  "\nGenerated on: " ++ strftime_display now2 ++
  "\n\n==========================================\n📚 PROFESSOR'S KNOWLEDGE BASE\n==========================================\n"
  ++ professorContent ++
  "\n\n==========================================\n🗺️ ACADEMIC ADVISOR'S LEARNING ROADMAP\n==========================================\n"
  ++ advisorContent ++
  "\n\n==========================================\n📋 RESEARCH LIBRARIAN'S RESOURCE GUIDE\n==========================================\n"
  ++ librarianContent ++
  "\n\n==========================================\n🎯 TEACHING ASSISTANT'S PRACTICE MATERIALS\n==========================================\n"
  ++ assistantContent ++
  "\n\n==========================================\nEND OF LEARNING PACKAGE\n==========================================\n        "

/-- Embedding of the download section (src/teaching.py lines 228 to 309):
the five `st.download_button` calls as `(file_name, data)` pairs, with the
one shared `timestamp` computed at line 231 from `now1` and the composite
package timestamp from the second `datetime.now()` call `now2`. -/
def download_files (professorResult advisorResult librarianResult
    assistantResult : AgentResult) (topic : String) (now1 now2 : DateTime) :
    List (String × String) :=
  let timestamp := strftime_compact now1
  [ (professorResult.filename ++ "_" ++ timestamp ++ ".txt",
     professorResult.content),
    (advisorResult.filename ++ "_" ++ timestamp ++ ".txt",
     advisorResult.content),
    (librarianResult.filename ++ "_" ++ timestamp ++ ".txt",
     librarianResult.content),
    (assistantResult.filename ++ "_" ++ timestamp ++ ".txt",
     assistantResult.content),
    ("complete_learning_package_" ++ pySnake topic ++ "_" ++ timestamp ++
       ".txt",
     complete_package topic now2 professorResult.content
       advisorResult.content librarianResult.content
       assistantResult.content) ]
/-- C2: for every topic the four agent functions return an AgentResult whose
filename is the agent's fixed tag followed by the topic lower-cased with
spaces replaced by underscores; the right-hand sides mention only the topic,
so the derivation is deterministic in the topic alone, whatever the chat or
search oracles, session model or API key. -/
theorem agent_filename_deterministic (chat : ChatFn) (session : String)
    (http : HttpFn) (serpKey topic : String) :
    (professor_agent chat session topic).filename =
      "professor_report_" ++ pySnake topic ∧
    (academic_advisor_agent chat session topic).filename =
      "learning_roadmap_" ++ pySnake topic ∧
    (research_librarian_agent chat session http serpKey topic).filename =
      "learning_resources_" ++ pySnake topic ∧
    (teaching_assistant_agent chat session topic).filename =
      "practice_materials_" ++ pySnake topic :=
  ⟨rfl, rfl, rfl, rfl⟩

/-- C3: if the chat call raises (the oracle returns an error) with message e,
then `call_ollama` returns the fail-soft string containing the literal
message, and every agent returns an AgentResult whose content is exactly
that string; no agent raises. -/
theorem agents_fail_soft (chat : ChatFn) (e session topic prompt serpKey :
    String) (http : HttpFn) (h : ∀ m msgs, chat m msgs = .error e) :
    call_ollama chat session prompt none = "Error calling Ollama: " ++ e ∧
    (professor_agent chat session topic).content =
      "Error calling Ollama: " ++ e ∧
    (academic_advisor_agent chat session topic).content =
      "Error calling Ollama: " ++ e ∧
    (research_librarian_agent chat session http serpKey topic).content =
      "Error calling Ollama: " ++ e ∧
    (teaching_assistant_agent chat session topic).content =
      "Error calling Ollama: " ++ e := by
  refine ⟨?_, ?_, ?_, ?_, ?_⟩ <;>
    simp [call_ollama, professor_agent, academic_advisor_agent,
      research_librarian_agent, teaching_assistant_agent, h]

theorem agents_fail_soft_witness :
    call_ollama (fun _ _ => .error "boom") "llama3.2:latest" "p" none =
      "Error calling Ollama: " ++ "boom" ∧
    (professor_agent (fun _ _ => .error "boom") "llama3.2:latest"
        "Python Programming").content = "Error calling Ollama: " ++ "boom" ∧
    (academic_advisor_agent (fun _ _ => .error "boom") "llama3.2:latest"
        "Python Programming").content = "Error calling Ollama: " ++ "boom" ∧
    (research_librarian_agent (fun _ _ => .error "boom") "llama3.2:latest"
        (fun _ => .exn "down") "key" "Python Programming").content =
      "Error calling Ollama: " ++ "boom" ∧
    (teaching_assistant_agent (fun _ _ => .error "boom") "llama3.2:latest"
        "Python Programming").content = "Error calling Ollama: " ++ "boom" :=
  agents_fail_soft (fun _ _ => .error "boom") "boom" "llama3.2:latest"
    "Python Programming" "p" "key" (fun _ => .exn "down") (fun _ _ => rfl)

/-- C10: `call_ollama` without an explicit model behaves exactly as with the
session model passed explicitly, and each of the four agents (all of which
pass no model) is unchanged when the chat oracle is replaced by one that
only answers for the session model: every chat request in a cycle goes to
the session-configured model. -/
theorem agents_use_session_model (chat : ChatFn) (session : String)
    (http : HttpFn) (serpKey topic prompt : String) :
    call_ollama chat session prompt none =
      call_ollama chat session prompt (some session) ∧
    professor_agent chat session topic =
      professor_agent
        (fun m msgs => if m = session then chat m msgs else .error "unused")
        session topic ∧
    academic_advisor_agent chat session topic =
      academic_advisor_agent
        (fun m msgs => if m = session then chat m msgs else .error "unused")
        session topic ∧
    research_librarian_agent chat session http serpKey topic =
      research_librarian_agent
        (fun m msgs => if m = session then chat m msgs else .error "unused")
        session http serpKey topic ∧
    teaching_assistant_agent chat session topic =
      teaching_assistant_agent
        (fun m msgs => if m = session then chat m msgs else .error "unused")
        session topic := by
  refine ⟨?_, ?_, ?_, ?_, ?_⟩ <;>
    simp [call_ollama, pyOrDefault, professor_agent, academic_advisor_agent,
      research_librarian_agent, teaching_assistant_agent]

/-- C4: when the response parses as JSON and `organic_results` is absent,
`search_web` returns the empty list, never the error sentinel; the sentinel
arises exactly from a raising request or a failing JSON parse. -/
theorem search_web_missing_field_empty (q k e : String) (status : Nat)
    (d : SerpData) (h : d.organic_results = none) :
    search_web (fun _ => .resp status (.parsed d)) q k = [] ∧
    search_web (fun _ => .exn e) q k =
      [SearchItem.error ("Search error: " ++ e)] ∧
    search_web (fun _ => .resp status (.malformed e)) q k =
      [SearchItem.error ("Search error: " ++ e)] := by
  refine ⟨?_, rfl, rfl⟩
  simp [search_web, h]

theorem search_web_missing_field_empty_witness :
    search_web (fun _ => .resp 200 (.parsed ⟨none⟩)) "learn Python tutorial course" "key" = [] ∧
    search_web (fun _ => .exn "boom") "learn Python tutorial course" "key" =
      [SearchItem.error ("Search error: " ++ "boom")] ∧
    search_web (fun _ => .resp 200 (.malformed "boom"))
        "learn Python tutorial course" "key" =
      [SearchItem.error ("Search error: " ++ "boom")] :=
  search_web_missing_field_empty "learn Python tutorial course" "key" "boom"
    200 ⟨none⟩ rfl

/-- C8: `search_web` consults the HTTP oracle only at the exact parameters
q = query, api_key = key, engine = google, num = 5 (restricting the oracle
to that one parameter value changes nothing), and each entry of a returned
`organic_results` array is mapped to a record of exactly title, link and
snippet, each defaulting to the empty string when absent. -/
theorem search_web_params_mapping (http : HttpFn) (q k : String)
    (status : Nat) (entries : List SerpEntry) :
    search_web http q k =
      search_web
        (fun p => if p = ⟨q, k, "google", 5⟩ then http p else .exn "unused")
        q k ∧
    search_web (fun _ => .resp status (.parsed ⟨some entries⟩)) q k =
      entries.map (fun r =>
        .record (r.title.getD "") (r.link.getD "") (r.snippet.getD "")) := by
  exact ⟨by simp [search_web], rfl⟩

/-- C5: the Research Librarian searches with exactly the query
`learn \x7btopic\x7d tutorial course` (restricting the HTTP oracle to those
parameters changes nothing), embeds the serialization of exactly the
returned result sequence in the prompt it sends to the LLM, and carries the
raw results in its AgentResult. -/
theorem librarian_search_roundtrip (chat : ChatFn) (session : String)
    (http : HttpFn) (serpKey topic : String) :
    (research_librarian_agent chat session http serpKey topic).search_results
      = some (search_web http ("learn " ++ topic ++ " tutorial course")
          serpKey) ∧
    (∃ pre post,
      (research_librarian_agent chat session http serpKey topic).content =
        call_ollama chat session
          (pre ++
            json_dumps (search_web http
              ("learn " ++ topic ++ " tutorial course") serpKey) ++ post)
          none) ∧
    research_librarian_agent chat session http serpKey topic =
      research_librarian_agent chat session
        (fun p =>
          if p = ⟨"learn " ++ topic ++ " tutorial course", serpKey,
              "google", 5⟩ then http p else .exn "unused")
        serpKey topic := by
  refine ⟨rfl, ⟨"\n    You are a Research Librarian. Based on the search results below, curate high-quality learning resources for: "
    ++ topic ++ "\n    \n    Search Results:\n    ",
    "\n    \n    Requirements:\n    1. Evaluate and recommend the best resources\n    2. Categorize them by type (tutorials, courses, books, videos, etc.)\n    3. Include difficulty levels and prerequisites\n    4. Provide brief descriptions and why each resource is valuable\n    5. Include both free and paid options\n    \n    Create a comprehensive resource guide.\n    ",
    rfl⟩, ?_⟩
  simp [research_librarian_agent, search_web]

/-- C6: if either credential is empty or the selected model is absent from
the inventory, the generation cycle returns a configuration error, and its
outcome is independent of the chat and HTTP oracles: no LLM chat call and no
search call can influence it, because none is issued before the halt. -/
theorem config_error_halts_before_agents (composio serp model : String)
    (avail : List String) (chat chat2 : ChatFn) (http http2 : HttpFn)
    (topic : String) (h : composio = "" ∨ serp = "" ∨ model ∉ avail) :
    (∃ c, generation_cycle composio serp model (.ok avail) chat http topic =
      .error c) ∧
    generation_cycle composio serp model (.ok avail) chat http topic =
      generation_cycle composio serp model (.ok avail) chat2 http2 topic := by
  by_cases hk : composio = "" ∨ serp = ""
  · exact ⟨⟨.missingKeys, by simp [generation_cycle, hk]⟩,
      by simp [generation_cycle, hk]⟩
  · have hm : model ∉ avail := by tauto
    exact ⟨⟨.modelNotFound model avail, by simp [generation_cycle, hk, hm]⟩,
      by simp [generation_cycle, hk, hm]⟩

theorem config_error_halts_before_agents_witness :
    (∃ c, generation_cycle "" "serpkey" "llama3.2:latest"
        (.ok ["llama3.2:latest"]) (fun _ _ => .ok "a") (fun _ => .exn "x")
        "Python Programming" = .error c) ∧
    generation_cycle "" "serpkey" "llama3.2:latest" (.ok ["llama3.2:latest"])
        (fun _ _ => .ok "a") (fun _ => .exn "x") "Python Programming" =
      generation_cycle "" "serpkey" "llama3.2:latest" (.ok ["llama3.2:latest"])
        (fun _ _ => .ok "b") (fun _ => .resp 200 (.parsed ⟨none⟩))
        "Python Programming" :=
  config_error_halts_before_agents "" "serpkey" "llama3.2:latest"
    ["llama3.2:latest"] (fun _ _ => .ok "a") (fun _ _ => .ok "b")
    (fun _ => .exn "x") (fun _ => .resp 200 (.parsed ⟨none⟩))
    "Python Programming" (Or.inl rfl)

/-- C1: for all agent contents (including empty strings) and every topic, the
composite package decomposes as the title line with the upper-cased topic
followed, in order, by the Professor, Advisor, Librarian and Assistant
banners, each banner followed by that agent's content verbatim. -/
theorem complete_package_contains_sections (topic : String) (now2 : DateTime)
    (p a l t : String) :
    ∃ g0 g1 g2 g3 g4 g5 g6 g7 g8 g9 : String,
      complete_package topic now2 p a l t =
        g0 ++ ("COMPLETE LEARNING PACKAGE FOR: " ++ pyUpper topic) ++ g1 ++
        "📚 PROFESSOR'S KNOWLEDGE BASE" ++ g2 ++ p ++
        g3 ++ "🗺️ ACADEMIC ADVISOR'S LEARNING ROADMAP" ++ g4 ++ a ++
        g5 ++ "📋 RESEARCH LIBRARIAN'S RESOURCE GUIDE" ++ g6 ++ l ++
        g7 ++ "🎯 TEACHING ASSISTANT'S PRACTICE MATERIALS" ++ g8 ++ t ++ g9 := by
  refine ⟨"\n",
    "\nGenerated on: " ++ strftime_display now2 ++
      "\n\n==========================================\n",
    "\n==========================================\n",
    "\n\n==========================================\n",
    "\n==========================================\n",
    "\n\n==========================================\n",
    "\n==========================================\n",
    "\n\n==========================================\n",
    "\n==========================================\n",
    "\n\n==========================================\nEND OF LEARNING PACKAGE\n==========================================\n        ",
    ?_⟩
  have hT : ("\nCOMPLETE LEARNING PACKAGE FOR: " : String) =
      "\n" ++ "COMPLETE LEARNING PACKAGE FOR: " := by decide
  have hP : ("\n\n==========================================\n📚 PROFESSOR'S KNOWLEDGE BASE\n==========================================\n" : String) =
      "\n\n==========================================\n" ++
        "📚 PROFESSOR'S KNOWLEDGE BASE" ++
        "\n==========================================\n" := by decide
  have hA : ("\n\n==========================================\n🗺️ ACADEMIC ADVISOR'S LEARNING ROADMAP\n==========================================\n" : String) =
      "\n\n==========================================\n" ++
        "🗺️ ACADEMIC ADVISOR'S LEARNING ROADMAP" ++
        "\n==========================================\n" := by decide
  have hL : ("\n\n==========================================\n📋 RESEARCH LIBRARIAN'S RESOURCE GUIDE\n==========================================\n" : String) =
      "\n\n==========================================\n" ++
        "📋 RESEARCH LIBRARIAN'S RESOURCE GUIDE" ++
        "\n==========================================\n" := by decide
  have hTA : ("\n\n==========================================\n🎯 TEACHING ASSISTANT'S PRACTICE MATERIALS\n==========================================\n" : String) =
      "\n\n==========================================\n" ++
        "🎯 TEACHING ASSISTANT'S PRACTICE MATERIALS" ++
        "\n==========================================\n" := by decide
  rw [complete_package, hT, hP, hA, hL, hTA]
  simp only [String.append_assoc]

/-- C7 counterexample: a request that returns a 4xx status whose body parses
as JSON without `organic_results` makes `search_web` return the empty list,
not the single-element error sentinel the claim requires for every 4xx/5xx
response. -/
theorem search_web_4xx_parsed_not_sentinel :
    search_web (fun _ => .resp 400 (.parsed ⟨none⟩))
      "learn Python Programming tutorial course" "key" = [] := rfl

/-- C7 amended: the sentinel is produced exactly when the request raises or
the body fails to parse as JSON (the source never inspects the status code,
so a 4xx/5xx whose body parses is handled like any parsed body); in every
case the Research Librarian still returns an AgentResult, the LLM call still
happens, and the serialized results, the sentinel included, are embedded in
the prompt. -/
theorem search_web_sentinel_amended (q k e session topic : String)
    (status : Nat) (chat : ChatFn) :
    search_web (fun _ => .exn e) q k =
      [SearchItem.error ("Search error: " ++ e)] ∧
    search_web (fun _ => .resp status (.malformed e)) q k =
      [SearchItem.error ("Search error: " ++ e)] ∧
    search_web (fun _ => .resp status (.parsed ⟨none⟩)) q k = [] ∧
    (research_librarian_agent chat session (fun _ => .exn e) k
        topic).search_results =
      some [SearchItem.error ("Search error: " ++ e)] ∧
    (∃ pre post,
      (research_librarian_agent chat session (fun _ => .exn e) k
          topic).content =
        call_ollama chat session
          (pre ++ json_dumps [SearchItem.error ("Search error: " ++ e)] ++
            post) none) := by
  refine ⟨rfl, rfl, rfl, rfl,
    ⟨"\n    You are a Research Librarian. Based on the search results below, curate high-quality learning resources for: "
      ++ topic ++ "\n    \n    Search Results:\n    ",
    "\n    \n    Requirements:\n    1. Evaluate and recommend the best resources\n    2. Categorize them by type (tutorials, courses, books, videos, etc.)\n    3. Include difficulty levels and prerequisites\n    4. Provide brief descriptions and why each resource is valuable\n    5. Include both free and paid options\n    \n    Create a comprehensive resource guide.\n    ",
    rfl⟩⟩

theorem natDigitChar_isDigit (d : Nat) (h : d < 10) :
    (Nat.digitChar d).isDigit = true := by
  interval_cases d <;> rfl

theorem toDigitsCore_digits (f : Nat) : ∀ (n : Nat) (l : List Char),
    (∀ c ∈ l, c.isDigit = true) →
    ∀ c ∈ Nat.toDigitsCore 10 f n l, c.isDigit = true := by
  induction f with
  | zero => intro n l hl c hc; exact hl c hc
  | succ f ih =>
    intro n l hl c hc
    simp only [Nat.toDigitsCore] at hc
    have hd : (Nat.digitChar (n % 10)).isDigit = true :=
      natDigitChar_isDigit _ (Nat.mod_lt _ (by norm_num))
    split at hc
    · rcases List.mem_cons.mp hc with h | h
      · exact h ▸ hd
      · exact hl c h
    · refine ih (n / 10) _ ?_ c hc
      intro c' hc'
      rcases List.mem_cons.mp hc' with h | h
      · exact h ▸ hd
      · exact hl c' h

theorem toDigitsCore_length_eq (f : Nat) : ∀ (n : Nat) (l : List Char),
    n < f →
    (Nat.toDigitsCore 10 f n l).length = Nat.log 10 n + 1 + l.length := by
  induction f with
  | zero => omega
  | succ f ih =>
    intro n l hn
    simp only [Nat.toDigitsCore]
    split
    · rename_i h0
      have h10 : n < 10 := by
        rcases Nat.div_eq_zero_iff (by norm_num) |>.mp h0 with h | h <;> omega
      have hlog : Nat.log 10 n = 0 := by
        rw [Nat.log_eq_zero_iff]; exact Or.inl h10
      simp [hlog]
      omega
    · rename_i h0
      have hge : 10 ≤ n := by
        by_contra hlt
        exact h0 (Nat.div_eq_of_lt (by omega))
      have hrec : n / 10 < f := by
        have := Nat.div_lt_self (by omega : 0 < n) (by norm_num : 1 < 10)
        omega
      rw [ih (n / 10) _ hrec, Nat.log_div_base]
      have hpos : 0 < Nat.log 10 n := Nat.log_pos (by norm_num) hge
      simp only [List.length_cons]
      omega

theorem repr_length_eq (n : Nat) : (Nat.repr n).length = Nat.log 10 n + 1 := by
  show (Nat.toDigits 10 n).asString.length = _
  rw [List.length_asString]
  have := toDigitsCore_length_eq (n + 1) n [] (Nat.lt_succ_self n)
  simpa [Nat.toDigits] using this

theorem repr_digits (n : Nat) : ∀ c ∈ (Nat.repr n).data, c.isDigit = true := by
  intro c hc
  have hd : (Nat.repr n).data = Nat.toDigitsCore 10 (n + 1) n [] := rfl
  rw [hd] at hc
  exact toDigitsCore_digits (n + 1) n [] (by simp) c hc

theorem repr_length_four (n : Nat) (h1 : 1000 ≤ n) (h2 : n < 10000) :
    (Nat.repr n).length = 4 := by
  rw [repr_length_eq]
  have : Nat.log 10 n = 3 := by
    refine Nat.log_eq_of_pow_le_of_lt_pow ?_ ?_ <;> norm_num <;> omega
  omega

theorem string_data_append (s t : String) : (s ++ t).data = s.data ++ t.data :=
  rfl

theorem string_length_append (s t : String) :
    (s ++ t).length = s.length + t.length := by
  show ((s ++ t).data).length = _
  rw [string_data_append, List.length_append]
  rfl

theorem pad2_length (n : Nat) (h : n < 100) : (pad2 n).length = 2 := by
  unfold pad2
  split
  · rename_i h10
    rw [string_length_append, repr_length_eq]
    have : Nat.log 10 n = 0 := by
      rw [Nat.log_eq_zero_iff]; exact Or.inl h10
    simp [this]
    rfl
  · rename_i h10
    rw [repr_length_eq]
    have : Nat.log 10 n = 1 := by
      refine Nat.log_eq_of_pow_le_of_lt_pow ?_ ?_ <;> norm_num <;> omega
    omega

theorem pad2_digits (n : Nat) : ∀ c ∈ (pad2 n).data, c.isDigit = true := by
  unfold pad2
  split
  · intro c hc
    rw [string_data_append] at hc
    rcases List.mem_append.mp hc with h | h
    · simp at h
      subst h
      rfl
    · exact repr_digits n c h
  · exact repr_digits n

/-- C9: the five download files of one cycle all use filenames of the form
stem ++ underscore ++ timestamp ++ .txt with the one timestamp computed at
line 231 shared by all five, the four per-agent data payloads are the agent
contents unmodified (and the fifth is the composite package), and for the
field ranges `datetime.now()` can produce the shared timestamp splits as
eight digits, an underscore, and six digits (YYYYMMDD_HHMMSS). -/
theorem downloads_shared_timestamp (professorR advisorR librarianR
    assistantR : AgentResult) (topic : String) (now1 now2 : DateTime)
    (hy1 : 1000 ≤ now1.year) (hy2 : now1.year < 10000)
    (hmo : now1.month < 100) (hdy : now1.day < 100) (hh : now1.hour < 100)
    (hmi : now1.minute < 100) (hs : now1.second < 100) :
    (∀ f ∈ download_files professorR advisorR librarianR assistantR topic
        now1 now2,
      ∃ stem, f.1 = stem ++ "_" ++ strftime_compact now1 ++ ".txt") ∧
    (download_files professorR advisorR librarianR assistantR topic now1
        now2).map Prod.snd =
      [professorR.content, advisorR.content, librarianR.content,
       assistantR.content,
       complete_package topic now2 professorR.content advisorR.content
         librarianR.content assistantR.content] ∧
    (∃ datePart timePart,
      strftime_compact now1 = datePart ++ "_" ++ timePart ∧
      datePart.length = 8 ∧ timePart.length = 6 ∧
      (∀ c ∈ datePart.data, c.isDigit = true) ∧
      (∀ c ∈ timePart.data, c.isDigit = true)) := by
  refine ⟨?_, rfl, ?_⟩
  · intro f hf
    simp only [download_files, List.mem_cons, List.not_mem_nil,
      or_false] at hf
    rcases hf with rfl | rfl | rfl | rfl | rfl
    · exact ⟨professorR.filename, rfl⟩
    · exact ⟨advisorR.filename, rfl⟩
    · exact ⟨librarianR.filename, rfl⟩
    · exact ⟨assistantR.filename, rfl⟩
    · exact ⟨"complete_learning_package_" ++ pySnake topic, rfl⟩
  · refine ⟨Nat.repr now1.year ++ pad2 now1.month ++ pad2 now1.day,
      pad2 now1.hour ++ pad2 now1.minute ++ pad2 now1.second,
      by simp [strftime_compact, String.append_assoc], ?_, ?_, ?_, ?_⟩
    · rw [string_length_append, string_length_append,
        repr_length_four now1.year hy1 hy2, pad2_length _ hmo,
        pad2_length _ hdy]
    · rw [string_length_append, string_length_append, pad2_length _ hh,
        pad2_length _ hmi, pad2_length _ hs]
    · intro c hc
      rw [string_data_append, string_data_append] at hc
      rcases List.mem_append.mp hc with h | h
      · rcases List.mem_append.mp h with h' | h'
        · exact repr_digits _ c h'
        · exact pad2_digits _ c h'
      · exact pad2_digits _ c h
    · intro c hc
      rw [string_data_append, string_data_append] at hc
      rcases List.mem_append.mp hc with h | h
      · rcases List.mem_append.mp h with h' | h'
        · exact pad2_digits _ c h'
        · exact pad2_digits _ c h'
      · exact pad2_digits _ c h

theorem downloads_shared_timestamp_witness :
    (∀ f ∈ download_files ⟨"pc", "pt", "pf", none⟩ ⟨"ac", "at", "af", none⟩
        ⟨"lc", "lt", "lf", some []⟩ ⟨"tc", "tt", "tf", none⟩
        "Python Programming" ⟨2026, 10, 12, 13, 45, 7⟩
        ⟨2026, 10, 12, 13, 45, 8⟩,
      ∃ stem, f.1 =
        stem ++ "_" ++ strftime_compact ⟨2026, 10, 12, 13, 45, 7⟩ ++
          ".txt") ∧
    (download_files ⟨"pc", "pt", "pf", none⟩ ⟨"ac", "at", "af", none⟩
        ⟨"lc", "lt", "lf", some []⟩ ⟨"tc", "tt", "tf", none⟩
        "Python Programming" ⟨2026, 10, 12, 13, 45, 7⟩
        ⟨2026, 10, 12, 13, 45, 8⟩).map Prod.snd =
      ["pc", "ac", "lc", "tc",
       complete_package "Python Programming" ⟨2026, 10, 12, 13, 45, 8⟩
         "pc" "ac" "lc" "tc"] ∧
    (∃ datePart timePart,
      strftime_compact ⟨2026, 10, 12, 13, 45, 7⟩ =
        datePart ++ "_" ++ timePart ∧
      datePart.length = 8 ∧ timePart.length = 6 ∧
      (∀ c ∈ datePart.data, c.isDigit = true) ∧
      (∀ c ∈ timePart.data, c.isDigit = true)) :=
  downloads_shared_timestamp ⟨"pc", "pt", "pf", none⟩ ⟨"ac", "at", "af", none⟩
    ⟨"lc", "lt", "lf", some []⟩ ⟨"tc", "tt", "tf", none⟩
    "Python Programming" ⟨2026, 10, 12, 13, 45, 7⟩ ⟨2026, 10, 12, 13, 45, 8⟩
    (by decide) (by decide) (by decide) (by decide) (by decide) (by decide)
    (by decide)

